import Mathlib

set_option linter.unusedVariables false

/-!
Verification of the BOB-ROV motor controller firmware
(crates rp2040-dshot and motor-controller).

All machine integers are embedded as Nat. Where the Rust code can wrap
(release-mode arithmetic on u8/u16/u32) the embedding applies the explicit
modulus; where the code uses checked arithmetic the embedding returns Option.
Shift amounts that reach the bit width of the type are reduced modulo the
width, matching release-mode semantics of the Rust shift operators.
-/

/-! ## Machine-integer helpers -/

/-- u16::from_le_bytes([b0, b1]) -/
def u16_from_le_bytes (b0 b1 : Nat) : Nat :=
  b0 ||| (b1 <<< 8)

/-- Wrapping subtraction on u16 (release-mode `a - b`); callers pass a, b < 2^16. -/
def u16_wrapping_sub (a b : Nat) : Nat :=
  (a + 65536 - b) % 65536

/-- u16::checked_sub -/
def u16_checked_sub (a b : Nat) : Option Nat :=
  if a < b then none else some (a - b)

/-- Wrapping subtraction on u32 (release-mode `a - b`); callers pass a, b < 2^32. -/
def u32_wrapping_sub (a b : Nat) : Nat :=
  (a + 4294967296 - b) % 4294967296

/-- Left shift on u16 whose shift amount is reduced mod 16 and whose result is
truncated to 16 bits, matching release-mode Rust `<<` on u16 (the shift amount
is masked; shifted-out bits are discarded). -/
def u16_shl_masked (n s : Nat) : Nat :=
  (n <<< (s % 16)) % 65536

/-! ## encoder.rs: CRC helpers (compute_standard_crc / compute_inverted_crc) -/

/-- rp2040-dshot/src/encoder.rs: compute_standard_crc. -/
def compute_standard_crc (value : Nat) : Nat :=
  (value ^^^ (value >>> 4) ^^^ (value >>> 8)) &&& 0x0F

/-- rp2040-dshot/src/encoder.rs: compute_inverted_crc.
Rust `!x` on u16 is x XOR 0xFFFF. -/
def compute_inverted_crc (value : Nat) : Nat :=
  ((value ^^^ (value >>> 4) ^^^ (value >>> 8)) ^^^ 0xFFFF) &&& 0x0F

/-! ## encoder.rs: Frame (generic over the checksum polarity, embedded as a
Bool flag `inverted` mirroring P::IS_INVERTED) -/

namespace Frame

/-- Frame::compute_crc, dispatching on the polarity. -/
def compute_crc (inverted : Bool) (data : Nat) : Nat :=
  if inverted then compute_inverted_crc data else compute_standard_crc data

/-- Frame::construct_frame. `data` is a u16; the intermediate
`data << 5` truncates to 16 bits as in Rust. -/
def construct_frame (inverted : Bool) (data : Nat) (request_telemetry : Bool) : Nat :=
  let d1 := (data <<< 5) % 65536
  let d2 := if request_telemetry then d1 ||| 0x10 else d1
  (d2 &&& 0xFFF0) ||| compute_crc inverted d2

/-- Frame::from_throttle: None iff throttle >= 2000. -/
def from_throttle (inverted : Bool) (throttle : Nat) (request_telemetry : Bool) :
    Option Nat :=
  if 2000 ≤ throttle then none
  else some (construct_frame inverted (throttle + 48) request_telemetry)

/-- Command discriminants accepted by num_enum TryFromPrimitive for
encoder.rs `Command` (0..=14, 20..=35, 42..=47). -/
def is_valid_command_code (b : Nat) : Bool :=
  b ≤ 14 || (20 ≤ b && b ≤ 35) || (42 ≤ b && b ≤ 47)

/-- Frame::from_command (the command is already a valid discriminant). -/
def from_command (inverted : Bool) (code : Nat) (request_telemetry : Bool) : Nat :=
  construct_frame inverted code request_telemetry

/-- Frame::speed: (inner >> 5).checked_sub(48). -/
def speed (inner : Nat) : Option Nat :=
  u16_checked_sub (inner >>> 5) 48

/-- Frame::telemetry_enabled: (inner & 0x10) != 0. -/
def telemetry_enabled (inner : Nat) : Bool :=
  (inner &&& 0x10) != 0

/-- Frame::crc: inner & 0x0F. -/
def crc (inner : Nat) : Nat :=
  inner &&& 0x0F

end Frame

/-! ## main.rs: write_dshot (host transport fan-in of a 2-byte payload) -/

/-- Outcome of main.rs `write_dshot` for one 2-byte payload: either the first
byte parses as a Command and is broadcast, or the little-endian u16 is fed
through `raw.checked_sub(raw - 48)` and the result broadcast as throttle,
or the checked_sub fails and nothing is broadcast. -/
inductive DShotWrite where
  | command (code : Nat)
  | throttle (value : Nat)
  | rejected (raw : Nat)
deriving DecidableEq, Repr

/-- main.rs / core0.rs write_dshot, payload classification and throttle
conversion. The inner `raw - 48` is release-mode wrapping subtraction. -/
def write_dshot (b0 b1 : Nat) : DShotWrite :=
  if Frame.is_valid_command_code b0 then
    DShotWrite.command b0
  else
    let raw := u16_from_le_bytes b0 b1
    match u16_checked_sub raw (u16_wrapping_sub raw 48) with
    | none => DShotWrite.rejected raw
    | some throttle => DShotWrite.throttle throttle

/-! ## main.rs: DoubleBuffer -/

/-- Shared state of main.rs `DoubleBuffer`: two 10-byte slots plus the
published index (`current`, an AtomicU8 holding 0 or 1). -/
structure DoubleBufferState where
  buf0 : List Nat
  buf1 : List Nat
  current : Nat
deriving DecidableEq, Repr

/-- DoubleBuffer::read: load `current` (Acquire) and copy that slot out. -/
def DoubleBuffer_read (s : DoubleBufferState) : List Nat :=
  if s.current = 0 then s.buf0 else s.buf1

/-- DoubleBuffer::write. The Rust body runs
`let buffers = *self.buffers.get();` (copies the whole `[[u8; 10]; 2]` array
out of the UnsafeCell by value), then
`let mut current_buf = buffers[current as usize];` (a second by-value copy)
and `current_buf.copy_from_slice(data)` which mutates only that local copy.
No store into the shared buffers ever happens, so the only observable effect
on the shared state is the final `self.current.store(1 - current, Release)`. -/
def DoubleBuffer_write (s : DoubleBufferState) (data : List Nat) : DoubleBufferState :=
  { s with current := 1 - s.current }

/-! ## core0.rs: spi_task seeking loop (host transport synchronization) -/

/-- One window of the seeking loop in core0.rs spi_task: the CRC the code
computes over the received 2-byte window. -/
def sync_crc_window (b0 b1 : Nat) : Nat :=
  compute_standard_crc (u16_from_le_bytes b0 b1)

/-- The seeking loop of core0.rs spi_task, run over a list of received
2-byte windows. `received_crc` is the value the code compares against:
`telemetry_buffer[1] & 0x0F`, taken from the local telemetry buffer (not from
the received window). Returns (reached SYNCED, final synced_count). On a
mismatch the code waits one bit time (no effect on the byte stream: no byte
is discarded) and resets the count. -/
def run_sync (threshold received_crc : Nat) : Nat → List (Nat × Nat) → Bool × Nat
  | count, [] => (false, count)
  | count, (b0, b1) :: rest =>
    if sync_crc_window b0 b1 = received_crc then
      if threshold ≤ count then (true, count)
      else run_sync threshold received_crc (count + 1) rest
    else
      run_sync threshold received_crc 0 rest

/-- motor-controller/src/config.rs: SYNC_THRESHOLD. -/
def SYNC_THRESHOLD : Nat := 3

/-! ## main.rs: for_each_driver fan-out control flow -/

/-- Channels attempted by main.rs `write_dshot`: the macro-expanded body runs
the eight drivers in order, and on a write error executes `return`, which
exits `write_dshot` and skips every following channel. `fail c = true` means
the write on channel c times out. Returns the list of channels on which a
write was attempted. -/
def fanout_main_go (fail : Nat → Bool) : List Nat → List Nat
  | [] => []
  | c :: rest => if fail c then [c] else c :: fanout_main_go fail rest

/-- main.rs write_dshot fan-out over the eight state machines
(pio0_sm0..pio1_sm3, indexed 0..7). -/
def fanout_main (fail : Nat → Bool) : List Nat :=
  fanout_main_go fail [0, 1, 2, 3, 4, 5, 6, 7]

/-- core0.rs write_dshot fan-out: the error handler only logs, there is no
early return, so all eight channels are attempted whatever fails. -/
def fanout_core0 (fail : Nat → Bool) : List Nat :=
  [0, 1, 2, 3, 4, 5, 6, 7]

/-! ## encoder.rs: TelemetryFrame -/

/-- One round of the CRC-8 inner loop: shift left (u8, top bit discarded) and
conditionally XOR the polynomial 0x07. -/
def crc8_round (crc : Nat) : Nat :=
  if crc &&& 0x80 ≠ 0 then ((crc <<< 1) % 256) ^^^ 0x07 else (crc <<< 1) % 256

/-- Process one byte of TelemetryFrame::compute_crc: `crc ^= byte` then eight
rounds of crc8_round. -/
def crc8_byte (crc byte : Nat) : Nat :=
  (List.range 8).foldl (fun c _ => crc8_round c) (crc ^^^ byte)

/-- TelemetryFrame::compute_crc: CRC-8, polynomial 0x07, MSB-first,
no reflection, initial value 0. -/
def tf_compute_crc (data : List Nat) : Nat :=
  data.foldl crc8_byte 0

/-- encoder.rs TelemetryFrame fields. -/
structure TelemetryFrame where
  temp : Nat
  voltage : Nat
  current : Nat
  consumption : Nat
  e_rpm : Nat
  crc : Nat
deriving DecidableEq, Repr

/-- TelemetryFrame::from_bytes over a 10-byte input. -/
def tf_from_bytes (d : Fin 10 → Nat) : Option TelemetryFrame :=
  let crc := tf_compute_crc [d 0, d 1, d 2, d 3, d 4, d 5, d 6, d 7, d 8]
  if crc = d 9 then
    some ⟨d 0, u16_from_le_bytes (d 1) (d 2), u16_from_le_bytes (d 3) (d 4),
      u16_from_le_bytes (d 5) (d 6), u16_from_le_bytes (d 7) (d 8), d 9⟩
  else
    none

/-! ## encoder.rs: DShotSpeed -/

inductive DShotSpeed where
  | DShot150
  | DShot300
  | DShot600
  | DShot1200
deriving DecidableEq, Repr

/-- DShotSpeed::bit_rate_hz. -/
def bit_rate_hz : DShotSpeed → Nat
  | DShotSpeed.DShot150 => 150000
  | DShotSpeed.DShot300 => 300000
  | DShotSpeed.DShot600 => 600000
  | DShotSpeed.DShot1200 => 1200000

/-- DShotSpeed::gcr_bit_rate_hz. -/
def gcr_bit_rate_hz : DShotSpeed → Nat
  | DShotSpeed.DShot150 => 187500
  | DShotSpeed.DShot300 => 375000
  | DShotSpeed.DShot600 => 750000
  | DShotSpeed.DShot1200 => 1500000

/-! ## program.rs: timing generation -/

/-- program.rs BitTimingDelays fields (u8 each in the source). -/
structure BitTimingDelays where
  one_high_delay : Nat
  zero_high_delay : Nat
  one_low_delay : Nat
  zero_low_delay : Nat
deriving DecidableEq, Repr

/-- BitTimingDelays::new. All four subtractions are plain u32 `-` in the
source (wrapping in release); the final `as u8` truncates mod 256. -/
def BitTimingDelays_new (bit_period : Nat) : BitTimingDelays :=
  let one_high := ((bit_period * 3) % 4294967296) / 5
  let zero_high := ((bit_period * 3) % 4294967296) / 10
  let one_low := u32_wrapping_sub bit_period one_high
  let zero_low := u32_wrapping_sub bit_period zero_high
  { one_high_delay := u32_wrapping_sub one_high 1 % 256
    zero_high_delay := u32_wrapping_sub zero_high 1 % 256
    one_low_delay := u32_wrapping_sub one_low 5 % 256
    zero_low_delay := u32_wrapping_sub zero_low 5 % 256 }

/-- program.rs FrameTimingDelays fields (u8 each in the source). -/
structure FrameTimingDelays where
  frame_delay_count : Nat
  frame_delay_remainder : Nat
  frame_delay : Nat
deriving DecidableEq, Repr

/-- FrameTimingDelays::from_total_delay. The remainder subtracts the fixed
setup overhead 7 from `total % 32` with plain u32 `-` (wrapping in release);
`as u8` truncates mod 256. -/
def FrameTimingDelays_from_total_delay (frame_delay_total : Nat) : FrameTimingDelays :=
  { frame_delay_count := (frame_delay_total / 32) % 256
    frame_delay_remainder := u32_wrapping_sub (frame_delay_total % 32) 7 % 256
    frame_delay := ((frame_delay_total / 32) % 32) % 256 }

/-- The `frame_delay_total` computed by FrameTimingDelays::new_standard:
`frame_period - bit_transmission_time - FRAME_OVERHEAD` with plain u32 `-`
(wrapping in release). -/
def frame_delay_total_standard (bit_period pio_clock update_rate : Nat) : Nat :=
  let frame_period := pio_clock / update_rate
  let bit_transmission_time := (bit_period * 16) % 4294967296
  u32_wrapping_sub (u32_wrapping_sub frame_period bit_transmission_time) 1

/-- FrameTimingDelays::new_standard. -/
def FrameTimingDelays_new_standard (bit_period pio_clock update_rate : Nat) :
    FrameTimingDelays :=
  FrameTimingDelays_from_total_delay
    (frame_delay_total_standard bit_period pio_clock update_rate)

/-- program.rs StandardDShotTimings. -/
structure StandardDShotTimings where
  bit_timings : BitTimingDelays
  frame_timings : FrameTimingDelays
deriving DecidableEq, Repr

/-- StandardDShotTimings::new. Total (infallible): it always returns a
timing table, there is no error path. -/
def StandardDShotTimings_new (dshot_speed : DShotSpeed) (pio_clock update_rate : Nat) :
    StandardDShotTimings :=
  let bit_period := pio_clock / bit_rate_hz dshot_speed
  { bit_timings := BitTimingDelays_new bit_period
    frame_timings := FrameTimingDelays_new_standard bit_period pio_clock update_rate }

/-! ## encoder.rs: StandardERpmFrame -/

/-- encoder.rs shift_from_raw: (raw >> 12) & 0x07. -/
def shift_from_raw (raw : Nat) : Nat :=
  (raw >>> 12) &&& 0x07

/-- encoder.rs base_from_raw: (raw >> 3) & 0x1FF. -/
def base_from_raw (raw : Nat) : Nat :=
  (raw >>> 3) &&& 0x1FF

/-- ERpmVarient::crc_from_raw: raw & 0x0F. -/
def erpm_crc_from_raw (raw : Nat) : Nat :=
  raw &&& 0x0F

/-- ERpmVarient::compute_crc: the eRPM checksum is always the non-inverted
polynomial. -/
def erpm_compute_crc (raw : Nat) : Nat :=
  compute_standard_crc raw

/-- encoder.rs StandardERpmFrame fields. -/
structure StandardERpmFrame where
  shift : Nat
  base : Nat
  crc : Nat
deriving DecidableEq, Repr

/-- StandardERpmFrame::from_raw: None iff the CRC nibble mismatches. -/
def StandardERpmFrame_from_raw (raw : Nat) : Option StandardERpmFrame :=
  if erpm_crc_from_raw raw = erpm_compute_crc raw then
    some ⟨shift_from_raw raw, base_from_raw raw, erpm_crc_from_raw raw⟩
  else
    none

/-- NonZeroU32::new. -/
def nonzero_u32 (x : Nat) : Option Nat :=
  if x = 0 then none else some x

/-- StandardERpmFrame::compute_period_us. The u32 shift `base << shift`
truncates to 32 bits. -/
def compute_period_us (f : StandardERpmFrame) : Option Nat :=
  if f.base = 0 then none
  else nonzero_u32 ((f.base <<< f.shift) % 4294967296)

/-- StandardERpmFrame::compute_rpm: 60_000_000 / period, or 0 when the
period is None. -/
def compute_rpm (f : StandardERpmFrame) : Nat :=
  match compute_period_us f with
  | none => 0
  | some period => 60000000 / period

/-! ## driver.rs: GCR decoding -/

/-- driver.rs GCR_DECODING_MAP (32 entries, 12 of them None). -/
def GCR_DECODING_MAP : List (Option Nat) :=
  [none, none, none, none, none, none, none, none, none,
   some 0x9, some 0xA, some 0xB, none, some 0xD, some 0xE, some 0xF,
   none, none, some 0x2, some 0x3, none, some 0x5, some 0x6, some 0x7,
   none, some 0x0, some 0x8, some 0x1, none, some 0x4, some 0xC, none]

/-- Table lookup; the index is always masked to 5 bits by the caller so it is
in bounds. -/
def gcr_map_at (i : Nat) : Option Nat :=
  GCR_DECODING_MAP.getD i none

/-- One iteration of the driver.rs decode_gcr loop, for
`shift` in 1..=4: look up the 5-bit symbol at bit offset shift*5 and OR the
mapped nibble into the u16 accumulator at bit offset shift*4. For shift = 4
the Rust expression `(nibble as u16) << 16` overflows the u16 width; in
release mode the shift amount is masked to 0, so that nibble lands in
bits 0..4. -/
def gcr_step (gcr result shift : Nat) : Option Nat :=
  match gcr_map_at ((gcr >>> (shift * 5)) &&& 0x1F) with
  | none => none
  | some nibble => some (result ||| u16_shl_masked nibble (shift * 4))

/-- driver.rs decode_gcr, the `for shift in 1..=4` loop unrolled. -/
def decode_gcr (gcr : Nat) : Option Nat := do
  let r1 ← gcr_step gcr 0 1
  let r2 ← gcr_step gcr r1 2
  let r3 ← gcr_step gcr r2 3
  gcr_step gcr r3 4

/-! ## Derived checksum descriptions for the frame codec -/

/-- The function the low nibble of every codec-constructed frame actually
satisfies: XOR of the frame nibbles at bits 7:4 and 11:8 (complemented and
masked to 4 bits for the inverted polarity). The nibble at bits 15:12 does
not participate, because construct_frame feeds the already-shifted 16-bit
value into compute_standard_crc, whose mask keeps only the three low
nibbles of that value. -/
def crc_of_frame_low_nibbles (inverted : Bool) (frame : Nat) : Nat :=
  let x := ((frame >>> 4) ^^^ (frame >>> 8)) &&& 0x0F
  if inverted then x ^^^ 0x0F else x

/-- Modelled from the spec wording for the frame checksum: XOR of the three
nibbles of the top 12 bits of the frame (bits 15:12, 11:8 and 7:4),
complemented (masked to 4 bits) for the inverted polarity. Stated here only
to be compared against the source behaviour. -/
def crc_claim_top_nibbles (inverted : Bool) (frame : Nat) : Nat :=
  let x := ((frame >>> 4) ^^^ (frame >>> 8) ^^^ (frame >>> 12)) &&& 0x0F
  if inverted then x ^^^ 0x0F else x

/-- A concrete 10-byte telemetry input: payload bytes 1..9 followed by their
CRC-8 value 133. -/
def telemetry_sample : Fin 10 → Nat :=
  fun i => [1, 2, 3, 4, 5, 6, 7, 8, 9, 133].getD i.val 0

/-!
Theorems.
-/

/-! ## C1: host transport throttle broadcast -/

/-- Claim C1 (code behaviour at the failing input): for the payload
[0xFF, 0x01] — whose first byte 255 is not a valid command code and whose
little-endian u16 value is 511 — write_dshot broadcasts throttle 48, not 511:
the conversion `raw.checked_sub(raw - 48)` collapses every raw ≥ 48 to 48.
The claim says the broadcast throttle equals the little-endian value. -/
theorem c1_throttle_collapse :
    write_dshot 255 1 = DShotWrite.throttle 48
      ∧ u16_from_le_bytes 255 1 = 511
      ∧ (48 : Nat) ≠ 511 := by
  decide

/-! ## C2: DoubleBuffer write/read -/

/-- Claim C2 (code behaviour at the failing input): starting from the
zero-initialized DoubleBuffer, writing the sample [1,...,10] and then reading
returns the stale zero bytes, not the written sample — DoubleBuffer::write
mutates only local copies and never stores into the shared slots. The claim
says every read after the write returns exactly the new sample. -/
theorem c2_double_buffer_write_lost :
    DoubleBuffer_read
        (DoubleBuffer_write ⟨List.replicate 10 0, List.replicate 10 0, 0⟩
          [1, 2, 3, 4, 5, 6, 7, 8, 9, 10])
      = List.replicate 10 0
      ∧ List.replicate 10 0 ≠ [1, 2, 3, 4, 5, 6, 7, 8, 9, 10] := by
  decide

/-! ## C3: frame checksum structure -/

/-- Claim C3 counterexample: the standard-polarity frame for throttle 208 is
0x2000, whose low nibble is 0, while the claim's checksum (XOR of the three
nibbles of the top 12 bits) over that frame is 2: the nibble at bits 15:12
does participate in the claim's function but not in the code's checksum. -/
theorem c3_counterexample :
    Frame.from_throttle false 208 false = some 8192
      ∧ Frame.crc 8192 = 0
      ∧ crc_claim_top_nibbles false 8192 = 2
      ∧ (0 : Nat) ≠ 2 := by
  decide

set_option maxRecDepth 10000 in
set_option maxHeartbeats 4000000 in
theorem c3_helper : ∀ hi : Fin 16, ∀ lo : Fin 128, ∀ inv t : Bool,
    Frame.crc (Frame.construct_frame inv (128 * hi.val + lo.val) t)
      = crc_of_frame_low_nibbles inv (Frame.construct_frame inv (128 * hi.val + lo.val) t) := by
  decide

/-- Claim C3 as amended: for every frame constructed by the frame codec
(from_throttle or from_command, either polarity), the low 4 bits of the
16-bit frame equal the XOR of the frame nibbles at bits 7:4 and 11:8 only
(complemented and masked to 4 bits for the inverted polarity); the nibble at
bits 15:12 does not participate. -/
theorem c3_checksum_low_nibbles (inverted t : Bool) :
    (∀ v f, v < 2000 → Frame.from_throttle inverted v t = some f →
        Frame.crc f = crc_of_frame_low_nibbles inverted f)
      ∧ (∀ c, Frame.is_valid_command_code c = true →
          Frame.crc (Frame.from_command inverted c t)
            = crc_of_frame_low_nibbles inverted (Frame.from_command inverted c t)) := by
  have key : ∀ data : Nat, data < 2048 →
      Frame.crc (Frame.construct_frame inverted data t)
        = crc_of_frame_low_nibbles inverted (Frame.construct_frame inverted data t) := by
    intro data hd
    have h := c3_helper ⟨data / 128, by omega⟩ ⟨data % 128, by omega⟩ inverted t
    simpa [Nat.div_add_mod] using h
  refine ⟨?_, ?_⟩
  · intro v f hv hf
    rw [Frame.from_throttle, if_neg (by omega)] at hf
    obtain rfl : Frame.construct_frame inverted (v + 48) t = f := Option.some.inj hf
    exact key (v + 48) (by omega)
  · intro c hc
    have hc48 : c < 48 := by
      simp [Frame.is_valid_command_code] at hc
      omega
    exact key c (by omega)

/-- Witness for C3 amended: the standard frame for throttle 208 satisfies the
amended checksum description. -/
theorem c3_witness :
    Frame.crc 8192 = crc_of_frame_low_nibbles false 8192 :=
  (c3_checksum_low_nibbles false false).1 208 8192 (by norm_num) (by decide)

/-! ## C4: throttle encode/decode round trip -/

set_option maxRecDepth 10000 in
set_option maxHeartbeats 4000000 in
theorem c4_helper : ∀ hi : Fin 16, ∀ lo : Fin 125, ∀ inv t : Bool,
    (Frame.speed (Frame.construct_frame inv (125 * hi.val + lo.val + 48) t)
        == some (125 * hi.val + lo.val)
      && Frame.telemetry_enabled (Frame.construct_frame inv (125 * hi.val + lo.val + 48) t)
        == t) = true := by
  decide

/-- Claim C4: for every throttle v in 0..=1999 and flag t (either checksum
polarity), from_throttle returns Some, and decoding the returned frame
recovers v and t exactly: speed = some v and telemetry_enabled = t. -/
theorem c4_throttle_roundtrip (inverted : Bool) (v : Nat) (t : Bool) (h : v < 2000) :
    Frame.from_throttle inverted v t = some (Frame.construct_frame inverted (v + 48) t)
      ∧ Frame.speed (Frame.construct_frame inverted (v + 48) t) = some v
      ∧ Frame.telemetry_enabled (Frame.construct_frame inverted (v + 48) t) = t := by
  have hk := c4_helper ⟨v / 125, by omega⟩ ⟨v % 125, by omega⟩ inverted t
  rw [Bool.and_eq_true, beq_iff_eq, beq_iff_eq] at hk
  have hv : 125 * (v / 125) + v % 125 = v := Nat.div_add_mod v 125
  rw [hv] at hk
  exact ⟨by rw [Frame.from_throttle, if_neg (by omega)], hk.1, hk.2⟩

/-- Witness for C4 at throttle 1028 with telemetry requested, standard
polarity. -/
theorem c4_witness :
    Frame.from_throttle false 1028 true = some (Frame.construct_frame false (1028 + 48) true)
      ∧ Frame.speed (Frame.construct_frame false (1028 + 48) true) = some 1028
      ∧ Frame.telemetry_enabled (Frame.construct_frame false (1028 + 48) true) = true :=
  c4_throttle_roundtrip false 1028 true (by norm_num)

/-! ## C5: transport synchronization loop -/

/-- Claim C5 (code behaviour at the failing input): with SYNC_THRESHOLD = 3
and the zero-initialized telemetry buffer (compared nibble 0), three
consecutive all-zero windows — each checksum-valid by the claim's criterion
(computed checksum 0 equals the window's low nibble 0) — leave the loop
still seeking with count 3; a fourth identical window is required to reach
SYNCED. Moreover a window [0x01, 0x00] whose own checksum is valid
(computed 1 equals its low nibble 1) is treated as a mismatch, because the
code compares against telemetry_buffer[1] & 0x0F = 0 instead of the received
window, so such windows reset the count forever. -/
theorem c5_sync_loop_divergence :
    run_sync SYNC_THRESHOLD 0 0 [(0, 0), (0, 0), (0, 0)] = (false, 3)
      ∧ run_sync SYNC_THRESHOLD 0 0 [(0, 0), (0, 0), (0, 0), (0, 0)] = (true, 3)
      ∧ sync_crc_window 1 0 = 1
      ∧ Frame.crc (u16_from_le_bytes 1 0) = 1
      ∧ run_sync SYNC_THRESHOLD 0 0 [(1, 0), (1, 0), (1, 0), (1, 0)] = (false, 0) := by
  decide

/-! ## C6: driver fan-out isolation -/

/-- Claim C6 (code behaviour at the failing input): in main.rs write_dshot a
timeout on channel 0 aborts the whole fan-out (the `return` inside the
for_each_driver body), so only channel 0 is attempted and channels 1..7 are
skipped; the claim says every remaining channel is still attempted. The
core0.rs variant, which merely logs the error, does attempt all eight. -/
theorem c6_fanout_early_return :
    fanout_main (fun c => c == 0) = [0]
      ∧ fanout_core0 (fun c => c == 0) = [0, 1, 2, 3, 4, 5, 6, 7]
      ∧ ([0] : List Nat) ≠ [0, 1, 2, 3, 4, 5, 6, 7] := by
  decide

/-! ## C7: serial telemetry decoding -/

/-- Claim C7: TelemetryFrame::from_bytes succeeds exactly when the CRC-8
(polynomial 0x07, MSB-first, no reflection, initial value 0, embedded as
tf_compute_crc) over the first 9 bytes equals the 10th byte, and on success
the fields are byte 0 and the little-endian u16s of byte pairs (1,2), (3,4),
(5,6), (7,8); on mismatch it returns none (the embedding is a total
function, so no panic is possible). -/
theorem c7_telemetry_decode (d : Fin 10 → Nat) :
    ((tf_from_bytes d).isSome = true
        ↔ tf_compute_crc [d 0, d 1, d 2, d 3, d 4, d 5, d 6, d 7, d 8] = d 9)
      ∧ (∀ f, tf_from_bytes d = some f →
          f.temp = d 0
            ∧ f.voltage = u16_from_le_bytes (d 1) (d 2)
            ∧ f.current = u16_from_le_bytes (d 3) (d 4)
            ∧ f.consumption = u16_from_le_bytes (d 5) (d 6)
            ∧ f.e_rpm = u16_from_le_bytes (d 7) (d 8)
            ∧ f.crc = d 9) := by
  constructor
  · simp only [tf_from_bytes]
    split
    · simp_all
    · simp_all
  · intro f hf
    simp only [tf_from_bytes] at hf
    split at hf
    · obtain rfl := Option.some.inj hf
      exact ⟨rfl, rfl, rfl, rfl, rfl, rfl⟩
    · exact absurd hf (by simp)

set_option maxRecDepth 10000 in
/-- Witness for C7 at the concrete valid input telemetry_sample
(bytes 1..9 with CRC 133): decoding succeeds and the temperature field
equals byte 0. -/
theorem c7_witness :
    (tf_from_bytes telemetry_sample).isSome = true
      ∧ TelemetryFrame.temp ⟨1, 770, 1284, 1798, 2312, 133⟩ = telemetry_sample 0 :=
  ⟨(c7_telemetry_decode telemetry_sample).1.mpr (by decide),
    ((c7_telemetry_decode telemetry_sample).2 ⟨1, 770, 1284, 1798, 2312, 133⟩ (by decide)).1⟩

/-! ## C8: timing generation underflow -/

/-- Claim C8 (code behaviour at the failing input): at
(DShot300, pio_clock 8 MHz, update_rate 100 kHz) the frame period is 80
cycles but transmission alone needs 416 + 1, so the true frame delay is
negative; the code's u32 subtraction wraps to 4294966959 and
StandardDShotTimings::new still returns a timing table (with truncated u8
fields) instead of failing at generation time as the claim requires. -/
theorem c8_timing_underflow_wraps :
    8000000 / 100000 < 26 * 16 + 1
      ∧ 8000000 / bit_rate_hz DShotSpeed.DShot300 = 26
      ∧ frame_delay_total_standard 26 8000000 100000 = 4294966959
      ∧ StandardDShotTimings_new DShotSpeed.DShot300 8000000 100000
          = ⟨⟨14, 6, 6, 14⟩, ⟨245, 8, 21⟩⟩ := by
  decide

/-! ## C9: eRPM period and RPM computation -/

/-- Claim C9: every frame produced by StandardERpmFrame::from_raw has
base < 512 and shift < 8 (the extraction masks), and for any such frame the
period is base shifted left by shift, compute_rpm divides 60,000,000 by that
period when base is nonzero and returns 0 when base is 0 (no division by
zero), and in particular base 100 with shift 0 gives rpm 600,000. -/
theorem c9_erpm_rpm (f : StandardERpmFrame) (hb : f.base < 512) (hs : f.shift < 8) :
    (∀ raw g, StandardERpmFrame_from_raw raw = some g → g.base < 512 ∧ g.shift < 8)
      ∧ (f.base ≠ 0 → compute_period_us f = some (f.base <<< f.shift)
          ∧ compute_rpm f = 60000000 / (f.base <<< f.shift))
      ∧ (f.base = 0 → compute_rpm f = 0)
      ∧ (f.base = 100 → f.shift = 0 → compute_rpm f = 600000) := by
  have hperiod : f.base ≠ 0 → compute_period_us f = some (f.base <<< f.shift) := by
    intro h0
    have hlt : f.base <<< f.shift < 4294967296 := by
      rw [Nat.shiftLeft_eq]
      calc f.base * 2 ^ f.shift < 512 * 2 ^ 8 :=
            Nat.mul_lt_mul_of_lt_of_lt hb (Nat.pow_lt_pow_right (by norm_num) hs)
        _ ≤ 4294967296 := by norm_num
    have hne : f.base <<< f.shift ≠ 0 := by
      rw [Nat.shiftLeft_eq]
      exact Nat.mul_ne_zero h0 (Nat.pos_iff_ne_zero.mp (Nat.two_pow_pos f.shift))
    rw [compute_period_us, if_neg h0, Nat.mod_eq_of_lt hlt, nonzero_u32, if_neg hne]
  refine ⟨?_, fun h0 => ⟨hperiod h0, ?_⟩, fun h0 => ?_, fun h100 hsh => ?_⟩
  · intro raw g hg
    rw [StandardERpmFrame_from_raw] at hg
    split at hg
    · obtain rfl := Option.some.inj hg
      exact ⟨Nat.lt_of_le_of_lt (Nat.and_le_right) (by norm_num),
        Nat.lt_of_le_of_lt (Nat.and_le_right) (by norm_num)⟩
    · exact absurd hg (by simp)
  · rw [compute_rpm, hperiod h0]
  · rw [compute_rpm, compute_period_us, if_pos h0]
  · have h0 : f.base ≠ 0 := by rw [h100]; norm_num
    rw [compute_rpm, hperiod h0, h100, hsh]
    norm_num

/-! ## C10: GCR decoding structure -/

/-- Claim C10 counterexample: decode_gcr maps 0x9CE720 (symbols 0b11001 at
offsets 5, 10, 15 and 0b01001 at offset 20) to some 9, whose low 4 bits are
9, not 0: the offset-20 nibble lands in bits 0..4 because the u16 shift by
16 is masked to a shift by 0. -/
theorem c10_counterexample :
    decode_gcr 0x9CE720 = some 9 ∧ (9 : Nat) &&& 0x0F ≠ 0 := by
  decide

theorem c10_shift5 (x k : Nat) (hk : k < 32) : (32 * x + k) >>> 5 = x := by
  rw [Nat.shiftRight_eq_div_pow]
  show (32 * x + k) / 32 = x
  rw [Nat.mul_add_div (by norm_num)]
  simp [Nat.div_eq_of_lt hk]

theorem c10_shift_add (x k s : Nat) (hk : k < 32) :
    (32 * x + k) >>> (5 + s) = x >>> s := by
  rw [Nat.shiftRight_add, c10_shift5 x k hk]

/-- decode_gcr characterized by the four table lookups. -/
theorem decode_gcr_eq (g : Nat) : decode_gcr g =
    match gcr_map_at ((g >>> 5) &&& 0x1F), gcr_map_at ((g >>> 10) &&& 0x1F),
        gcr_map_at ((g >>> 15) &&& 0x1F), gcr_map_at ((g >>> 20) &&& 0x1F) with
    | some a, some b, some c, some d =>
        some (((((0 : Nat) ||| u16_shl_masked a 4) ||| u16_shl_masked b 8)
          ||| u16_shl_masked c 12) ||| u16_shl_masked d 16)
    | _, _, _, _ => none := by
  simp only [decode_gcr, gcr_step]
  norm_num
  cases gcr_map_at ((g >>> 5) &&& 0x1F) <;>
    cases gcr_map_at ((g >>> 10) &&& 0x1F) <;>
    cases gcr_map_at ((g >>> 15) &&& 0x1F) <;>
    cases gcr_map_at ((g >>> 20) &&& 0x1F) <;>
    rfl

/-- Every nibble stored in GCR_DECODING_MAP is below 16. -/
theorem gcr_map_lt16 (i n : Nat) (h : gcr_map_at i = some n) : n < 16 := by
  rcases Nat.lt_or_ge i 32 with hi | hi
  · interval_cases i <;> simp [gcr_map_at, GCR_DECODING_MAP] at h <;> omega
  · rw [gcr_map_at, List.getD_eq_default] at h
    · exact absurd h (by simp)
    · simpa [GCR_DECODING_MAP] using hi

set_option maxHeartbeats 4000000 in
theorem c10_lor_form : ∀ a b c d : Fin 16,
    ((((0 : Nat) ||| u16_shl_masked a.val 4) ||| u16_shl_masked b.val 8)
        ||| u16_shl_masked c.val 12) ||| u16_shl_masked d.val 16
      = d.val + 16 * a.val + 256 * b.val + 4096 * c.val := by
  decide

/-- Claim C10 as amended: decode_gcr ignores bits 0..4 of its input and maps
only the four 5-bit symbols at bit offsets 5, 10, 15 and 20 through the
32-entry table, rejecting the whole frame when any of them maps to None; on
success the result is a 16-bit value whose low 4 bits equal the nibble
decoded from the offset-20 symbol (not zero in general), the nibbles from
offsets 5, 10 and 15 occupying bits 4..15. -/
theorem c10_gcr_structure (g k : Nat) (hk : k < 32) :
    decode_gcr (32 * (g >>> 5) + k) = decode_gcr g
      ∧ (∀ r, decode_gcr g = some r →
          ∃ a b c d,
            gcr_map_at ((g >>> 5) &&& 0x1F) = some a
              ∧ gcr_map_at ((g >>> 10) &&& 0x1F) = some b
              ∧ gcr_map_at ((g >>> 15) &&& 0x1F) = some c
              ∧ gcr_map_at ((g >>> 20) &&& 0x1F) = some d
              ∧ r = d + 16 * a + 256 * b + 4096 * c
              ∧ r < 65536
              ∧ r % 16 = d) := by
  constructor
  · have e5 : (32 * (g >>> 5) + k) >>> 5 = g >>> 5 := c10_shift5 (g >>> 5) k hk
    have e10 : (32 * (g >>> 5) + k) >>> 10 = g >>> 10 := by
      have h1 := c10_shift_add (g >>> 5) k 5 hk
      have h2 : g >>> 5 >>> 5 = g >>> 10 := (Nat.shiftRight_add g 5 5).symm
      simpa using h1.trans h2
    have e15 : (32 * (g >>> 5) + k) >>> 15 = g >>> 15 := by
      have h1 := c10_shift_add (g >>> 5) k 10 hk
      have h2 : g >>> 5 >>> 10 = g >>> 15 := (Nat.shiftRight_add g 5 10).symm
      simpa using h1.trans h2
    have e20 : (32 * (g >>> 5) + k) >>> 20 = g >>> 20 := by
      have h1 := c10_shift_add (g >>> 5) k 15 hk
      have h2 : g >>> 5 >>> 15 = g >>> 20 := (Nat.shiftRight_add g 5 15).symm
      simpa using h1.trans h2
    rw [decode_gcr_eq, decode_gcr_eq, e5, e10, e15, e20]
  · intro r hr
    rw [decode_gcr_eq] at hr
    cases h1 : gcr_map_at ((g >>> 5) &&& 0x1F) with
    | none => rw [h1] at hr; exact absurd hr (by simp)
    | some a =>
      cases h2 : gcr_map_at ((g >>> 10) &&& 0x1F) with
      | none => rw [h1, h2] at hr; exact absurd hr (by simp)
      | some b =>
        cases h3 : gcr_map_at ((g >>> 15) &&& 0x1F) with
        | none => rw [h1, h2, h3] at hr; exact absurd hr (by simp)
        | some c =>
          cases h4 : gcr_map_at ((g >>> 20) &&& 0x1F) with
          | none => rw [h1, h2, h3, h4] at hr; exact absurd hr (by simp)
          | some d =>
            rw [h1, h2, h3, h4] at hr
            have ha := gcr_map_lt16 _ _ h1
            have hb := gcr_map_lt16 _ _ h2
            have hc := gcr_map_lt16 _ _ h3
            have hd := gcr_map_lt16 _ _ h4
            have hform := c10_lor_form ⟨a, ha⟩ ⟨b, hb⟩ ⟨c, hc⟩ ⟨d, hd⟩
            simp only [] at hform
            have hrval : r = d + 16 * a + 256 * b + 4096 * c := by
              have hinj := Option.some.inj hr
              exact hinj.symm.trans hform
            exact ⟨a, b, c, d, rfl, rfl, rfl, rfl, hrval, by omega, by omega⟩

/-- Witness for C10 amended, at the counterexample input with low bits 7:
the low 5 bits do not change the decode result, which is some 9. -/
theorem c10_witness :
    decode_gcr (32 * (0x9CE720 >>> 5) + 7) = decode_gcr 0x9CE720
      ∧ decode_gcr 0x9CE720 = some 9 :=
  ⟨(c10_gcr_structure 0x9CE720 7 (by norm_num)).1, by decide⟩

/-- Witness for C9 at the frame with shift 0, base 100: rpm is 600,000. -/
theorem c9_witness : compute_rpm ⟨0, 100, 9⟩ = 600000 :=
  (c9_erpm_rpm ⟨0, 100, 9⟩ (by norm_num) (by norm_num)).2.2.2 rfl rfl
